import Mathlib

/-!
Shallow embedding of `notebooks/power_laws.py`: NaN-masking log-space
statistics, orthogonal-distance power-law fitting (`fit_power_law_odr`)
and bootstrap resampling (`bootstrap_power_law_odr`).

Modelling conventions:
* Python/numpy floats are modelled by `EFloat`: a finite rational value,
  positive or negative infinity, or NaN.
* scipy/numpy collaborators (`linregress`, `pearsonr`, `spearmanr`,
  `scipy.odr`, the finite branch of `np.log`, `np.exp`) are uninterpreted
  oracles collected in a `ScipyEnv`; the code under verification only
  moves data in and out of them, which is exactly what we embed.
* Python exceptions are `Except PyError`; `PyError` also carries the two
  error kinds named by the specification (`InsufficientDataError`,
  `ConvergenceError`) so that statements about them can be expressed,
  even though the source never constructs them.
* numpy's global pseudo-random generator is modelled by an ambient stream
  `stream : ℕ → ℕ` together with an explicit read position; a draw of
  `np.random.choice(tot, k)` reads `k` consecutive stream values reduced
  mod `tot`.
-/

/-- Model of a Python/numpy float: a finite (exact) value, an infinity, or NaN. -/
inductive EFloat where
  | val : ℚ → EFloat
  | inf : EFloat
  | negInf : EFloat
  | nan : EFloat
deriving DecidableEq, Inhabited

/-- Embeds `np.isnan` on a single value. -/
def EFloat.isnan : EFloat → Bool
  | .nan => true
  | _ => false

/-- Embeds `np.isfinite` on a single value: finite values only, so false on both
infinities and on NaN (as in numpy). -/
def EFloat.isfinite : EFloat → Bool
  | .val _ => true
  | _ => false

/-- Error raised by a Python call. `valueError` stands for the `ValueError`s that
numpy/scipy collaborators raise on degenerate input. `insufficientDataError` and
`convergenceError` are the error kinds named by the specification; they are part
of the type so claims about them can be stated, but nothing in the embedded
source constructs them. -/
inductive PyError where
  | valueError : PyError
  | insufficientDataError : PyError
  | convergenceError : PyError
deriving DecidableEq

/-- Result record of `scipy.stats.linregress`:
slope, intercept, rvalue, pvalue, stderr. -/
structure LinResult where
  slope : EFloat
  intercept : EFloat
  rvalue : EFloat
  pvalue : EFloat
  stderr : EFloat
deriving DecidableEq

/-- Output record of `scipy.odr.ODR(...).run()`: the fitted parameter vector
`beta` and the solver's `info` diagnostic (stopping reason; values `≥ 4` mean
the iteration limit was hit or worse, i.e. the solver did not converge). -/
structure ODROutput where
  beta : List EFloat
  info : ℤ
deriving DecidableEq

/-- Tag for the two model functions the source passes to `scipy.odr.Model`. -/
inductive ODRModelF where
  | lin_f : ODRModelF
  | slope_one : ODRModelF
deriving DecidableEq

/-- Embeds `_lin_f(p, x) = p[0] * x + p[1]`, the 2-parameter linear model. -/
def _lin_f (p : List ℚ) (x : ℚ) : ℚ := p.getD 0 0 * x + p.getD 1 0

/-- Embeds `_slope_one(p, x) = x + p[0]`, the 1-parameter model with slope
fixed at 1. -/
def _slope_one (p : List ℚ) (x : ℚ) : ℚ := x + p.getD 0 0

/-- Evaluation of the tagged model functions on finite values. -/
def ODRModelF.eval : ODRModelF → List ℚ → ℚ → ℚ
  | .lin_f, p, x => _lin_f p x
  | .slope_one, p, x => _slope_one p x

/-- Oracles for the scipy/numpy collaborators consumed by `power_laws.py`. -/
structure ScipyEnv where
  flog : ℚ → EFloat
  fexp : EFloat → EFloat
  spearmanr : List EFloat → List EFloat → EFloat × EFloat
  pearsonr : List EFloat → List EFloat → EFloat × EFloat
  linregress : List EFloat → List EFloat → Except PyError LinResult
  odrRun : ODRModelF → List EFloat → List EFloat → List EFloat → ODROutput

/-- Embeds `np.log` applied elementwise: NaN for negative or NaN input,
`-inf` at zero, `inf` at `inf`, and the oracle `flog` on positive finite
values. -/
def nplog (flog : ℚ → EFloat) : EFloat → EFloat
  | .val q => if 0 < q then flog q else if q = 0 then EFloat.negInf else EFloat.nan
  | .inf => EFloat.inf
  | .negInf => EFloat.nan
  | .nan => EFloat.nan

/-- Embeds numpy boolean-mask indexing `arr[mask]` for equal-length mask and
array: keep the entries at positions where the mask is true, in order. -/
def applyMask : List Bool → List EFloat → List EFloat
  | true :: ms, v :: vs => v :: applyMask ms vs
  | false :: ms, _ :: vs => applyMask ms vs
  | _, _ => []

/-- Embeds the mask `~np.isnan(log_xs) & ~np.isnan(log_ys)` shared by
`log_spearmanr`, `log_pearsonr` and `log_linregress`. -/
def nanMask (xs ys : List EFloat) : List Bool :=
  List.zipWith (fun a b => !a.isnan && !b.isnan) xs ys

/-- Embeds `log_spearmanr`: NaN-mask both arrays, then call
`scipy.stats.spearmanr` on the filtered pair. -/
def log_spearmanr (env : ScipyEnv) (log_xs log_ys : List EFloat) : EFloat × EFloat :=
  env.spearmanr (applyMask (nanMask log_xs log_ys) log_xs)
    (applyMask (nanMask log_xs log_ys) log_ys)

/-- Embeds `log_pearsonr`: NaN-mask both arrays, then call
`scipy.stats.pearsonr` on the filtered pair. -/
def log_pearsonr (env : ScipyEnv) (log_xs log_ys : List EFloat) : EFloat × EFloat :=
  env.pearsonr (applyMask (nanMask log_xs log_ys) log_xs)
    (applyMask (nanMask log_xs log_ys) log_ys)

/-- Embeds `log_linregress`: NaN-mask both arrays, then call
`scipy.stats.linregress` on the filtered pair. -/
def log_linregress (env : ScipyEnv) (log_xs log_ys : List EFloat) :
    Except PyError LinResult :=
  env.linregress (applyMask (nanMask log_xs log_ys) log_xs)
    (applyMask (nanMask log_xs log_ys) log_ys)

/-- Embeds the two masking lines of `fit_power_law_odr`:
`mask = ~np.isnan(log_xs) & ~np.isnan(log_ys)` followed by
`mask &= np.isfinite(log_xs) & np.isfinite(log_ys)`. -/
def odrMask (xs ys : List EFloat) : List Bool :=
  List.zipWith (fun a b => (!a.isnan && !b.isnan) && (a.isfinite && b.isfinite)) xs ys

/-- The `xs_ = log_xs[mask]` array inside `fit_power_law_odr`. -/
def odrXs (xs ys : List EFloat) : List EFloat := applyMask (odrMask xs ys) xs

/-- The `ys_ = log_ys[mask]` array inside `fit_power_law_odr`. -/
def odrYs (xs ys : List EFloat) : List EFloat := applyMask (odrMask xs ys) ys

/-- Embeds `fit_power_law_odr(log_xs, log_ys, unit_exp)`: mask NaNs and
non-finite values, warm-start from `linregress`, run the ODR solver with the
`_lin_f` model (or `_slope_one` and just the intercept when `unit_exp`),
read the fitted parameters from `out.beta` (slope pinned to `1` when
`unit_exp`), compute the Pearson r of the masked data, and return
`(exponent, np.exp(intercept), r)`. A `linregress` exception propagates. -/
def fit_power_law_odr (env : ScipyEnv) (log_xs log_ys : List EFloat)
    (unit_exp : Bool) : Except PyError (EFloat × EFloat × EFloat) :=
  match env.linregress (odrXs log_xs log_ys) (odrYs log_xs log_ys) with
  | .error e => .error e
  | .ok linreg =>
    let fb : ODRModelF × List EFloat :=
      if unit_exp then (ODRModelF.slope_one, [linreg.intercept])
      else (ODRModelF.lin_f, [linreg.slope, linreg.intercept])
    let out := env.odrRun fb.1 (odrXs log_xs log_ys) (odrYs log_xs log_ys) fb.2
    let si : EFloat × EFloat :=
      if unit_exp then (EFloat.val 1, out.beta.getD 0 EFloat.nan)
      else (out.beta.getD 0 EFloat.nan, out.beta.getD 1 EFloat.nan)
    let r := (env.pearsonr (odrXs log_xs log_ys) (odrYs log_xs log_ys)).1
    .ok (si.1, env.fexp si.2, r)

/-- Embeds Python `int()` applied to a real number: truncation toward zero. -/
def pytrunc (q : ℚ) : ℤ := if 0 ≤ q then ⌊q⌋ else -⌊-q⌋

/-- The list of indices produced by one `np.random.choice(tot, size)` draw at
stream position `pos`: `size` consecutive stream values reduced mod `tot`
(each a uniform-with-replacement draw from `range(tot)`). -/
def roundIdxs (tot : ℕ) (size : ℤ) (stream : ℕ → ℕ) (pos : ℕ) : List ℕ :=
  (List.range size.toNat).map (fun i => stream (pos + i) % tot)

/-- Embeds `np.random.choice(tot, size)` reading the global generator at
position `pos`: `ValueError` on a negative size, `ValueError` when drawing a
positive number of samples from an empty range, otherwise the drawn indices. -/
def np_random_choice (tot : ℕ) (size : ℤ) (stream : ℕ → ℕ) (pos : ℕ) :
    Except PyError (List ℕ) :=
  if size < 0 then .error PyError.valueError
  else if tot = 0 ∧ size ≠ 0 then .error PyError.valueError
  else .ok (roundIdxs tot size stream pos)

/-- Embeds the mask `np.isfinite(xs) & np.isfinite(ys)` computed once at the
top of `bootstrap_power_law_odr`. -/
def bootMask (xs ys : List EFloat) : List Bool :=
  List.zipWith (fun a b => a.isfinite && b.isfinite) xs ys

/-- The `masked_xs = np.array(xs)[mask]` array of `bootstrap_power_law_odr`. -/
def bootMaskedXs (xs ys : List EFloat) : List EFloat := applyMask (bootMask xs ys) xs

/-- The `masked_ys = np.array(ys)[mask]` array of `bootstrap_power_law_odr`. -/
def bootMaskedYs (xs ys : List EFloat) : List EFloat := applyMask (bootMask xs ys) ys

/-- The `tot = np.sum(mask)` count of `bootstrap_power_law_odr`. -/
def bootTot (xs ys : List EFloat) : ℕ :=
  ((bootMask xs ys).filter (fun b => b)).length

/-- The `subset_size = int(fraction * tot)` value of `bootstrap_power_law_odr`. -/
def bootSubsetSize (xs ys : List EFloat) (fraction : ℚ) : ℤ :=
  pytrunc (fraction * (bootTot xs ys : ℚ))

/-- Embeds the `for _ in range(rounds)` loop of `bootstrap_power_law_odr`:
each round draws `size` indices, gathers the masked values, takes `np.log`
elementwise, runs the unconstrained `fit_power_law_odr`, and appends the
resulting exponent, prefactor and r to the three accumulators. Any exception
aborts the whole loop (Python propagation). `pos` is the current read
position in the global random stream. -/
def bootstrapLoop (env : ScipyEnv) (mxs mys : List EFloat) (tot : ℕ) (size : ℤ)
    (stream : ℕ → ℕ) : ℕ → ℕ → Except PyError (List EFloat × List EFloat × List EFloat)
  | 0, _ => .ok ([], [], [])
  | n + 1, pos =>
    match np_random_choice tot size stream pos with
    | .error e => .error e
    | .ok idxs =>
      match fit_power_law_odr env
          ((idxs.map (fun i => mxs.getD i EFloat.nan)).map (nplog env.flog))
          ((idxs.map (fun i => mys.getD i EFloat.nan)).map (nplog env.flog)) false with
      | .error e => .error e
      | .ok epr =>
        match bootstrapLoop env mxs mys tot size stream n (pos + size.toNat) with
        | .error e => .error e
        | .ok rest => .ok (epr.1 :: rest.1, epr.2.1 :: rest.2.1, epr.2.2 :: rest.2.2)

/-- Embeds `bootstrap_power_law_odr(xs, ys, fraction, rounds)`: filter both
arrays by the finiteness mask, compute `subset_size = int(fraction * tot)`,
then run the resampling loop starting at stream position 0. Note the source
performs no validation of `fraction`, `tot` or `subset_size`. -/
def bootstrap_power_law_odr (env : ScipyEnv) (xs ys : List EFloat) (fraction : ℚ)
    (rounds : ℕ) (stream : ℕ → ℕ) :
    Except PyError (List EFloat × List EFloat × List EFloat) :=
  bootstrapLoop env (bootMaskedXs xs ys) (bootMaskedYs xs ys) (bootTot xs ys)
    (bootSubsetSize xs ys fraction) stream rounds 0

/-!
Concrete instantiations of the collaborator oracles, used to evaluate the
embedded code on explicit inputs. `testLinregress` mirrors scipy's documented
behaviour of raising `ValueError` on degenerate input (fewer than two points);
its numeric outputs are simple data-dependent values, enough to observe which
data the embedded code feeds to its collaborators.
-/

/-- Oracle stand-in for the finite branch of `np.log`. -/
def testFlog (q : ℚ) : EFloat := EFloat.val q

/-- Oracle stand-in for `np.exp`. -/
def testFexp (x : EFloat) : EFloat := x

/-- Oracle stand-in for `scipy.stats.spearmanr`; reports the sample size it
was handed, so tests can observe the filtered length. -/
def testSpearman (xs _ys : List EFloat) : EFloat × EFloat :=
  (EFloat.val (xs.length : ℚ), EFloat.val 0)

/-- Oracle stand-in for `scipy.stats.pearsonr`; reports the sample size it
was handed. -/
def testPearson (xs _ys : List EFloat) : EFloat × EFloat :=
  (EFloat.val (xs.length : ℚ), EFloat.val 0)

/-- Oracle stand-in for `scipy.stats.linregress`: raises `ValueError` on fewer
than two points (as scipy does), otherwise returns a result whose slope and
intercept are the first data values it was handed. -/
def testLinregress (xs ys : List EFloat) : Except PyError LinResult :=
  if xs.length < 2 then .error PyError.valueError
  else .ok ⟨xs.getD 0 EFloat.nan, ys.getD 0 EFloat.nan, EFloat.val 1, EFloat.val 0, EFloat.val 0⟩

/-- Oracle stand-in for a converged `scipy.odr` solver run: returns the
starting parameters as the fit and reports `info = 1` (converged). -/
def testOdrRun (_m : ODRModelF) (_xs _ys : List EFloat) (beta0 : List EFloat) : ODROutput :=
  ⟨beta0, 1⟩

/-- Oracle stand-in for a `scipy.odr` solver run that hits its iteration limit:
same fitted parameters, but `info = 4` (not converged). -/
def testOdrRunStuck (_m : ODRModelF) (_xs _ys : List EFloat) (beta0 : List EFloat) : ODROutput :=
  ⟨beta0, 4⟩

/-- A scipy-like environment with a converging solver. -/
def testEnv : ScipyEnv :=
  ⟨testFlog, testFexp, testSpearman, testPearson, testLinregress, testOdrRun⟩

/-- The same environment except that the solver reports non-convergence. -/
def testEnvStuck : ScipyEnv :=
  ⟨testFlog, testFexp, testSpearman, testPearson, testLinregress, testOdrRunStuck⟩

/-- Four finite data points, all valid. -/
def X4 : List EFloat := [EFloat.val 1, EFloat.val 2, EFloat.val 3, EFloat.val 4]

/-- Three points whose last x-coordinate is infinite (valid per the NaN-only
mask of the `log_*` helpers, invalid per the spec's finiteness requirement). -/
def Xinf : List EFloat := [EFloat.val 1, EFloat.val 2, EFloat.inf]

/-- Three finite points. -/
def Y3 : List EFloat := [EFloat.val 1, EFloat.val 2, EFloat.val 3]

/-- Modelled from the spec: the validity mask described in the data model,
true where both coordinates are finite and non-NaN. The source's `log_*`
helpers use `nanMask` instead, which tests only for NaN. -/
def specValidMask (xs ys : List EFloat) : List Bool :=
  List.zipWith (fun a b => (a.isfinite && !a.isnan) && (b.isfinite && !b.isnan)) xs ys

/-- The pairs kept by the NaN-only mask of the `log_*` helpers, with relative
order preserved. -/
def nanKeptPairs (xs ys : List EFloat) : List (EFloat × EFloat) :=
  (xs.zip ys).filter (fun t => !t.1.isnan && !t.2.isnan)

/-- First coordinates of the kept pairs. -/
def nanKeptXs (xs ys : List EFloat) : List EFloat := (nanKeptPairs xs ys).map Prod.fst

/-- Second coordinates of the kept pairs. -/
def nanKeptYs (xs ys : List EFloat) : List EFloat := (nanKeptPairs xs ys).map Prod.snd

/-- Boolean-mask indexing of the first array by a `zipWith` mask agrees with
filtering the zipped pairs and projecting. -/
theorem applyMask_zipWith_fst (p : EFloat → EFloat → Bool) :
    ∀ xs ys : List EFloat,
      applyMask (List.zipWith p xs ys) xs
        = ((xs.zip ys).filter (fun t => p t.1 t.2)).map Prod.fst
  | [], ys => by cases ys <;> rfl
  | _ :: _, [] => rfl
  | x :: xs, y :: ys => by
    cases hp : p x y <;>
      simp [applyMask, List.filter_cons, hp, applyMask_zipWith_fst p xs ys]

/-- Boolean-mask indexing of the second array by a `zipWith` mask agrees with
filtering the zipped pairs and projecting. -/
theorem applyMask_zipWith_snd (p : EFloat → EFloat → Bool) :
    ∀ xs ys : List EFloat,
      applyMask (List.zipWith p xs ys) ys
        = ((xs.zip ys).filter (fun t => p t.1 t.2)).map Prod.snd
  | [], ys => by cases ys <;> rfl
  | _ :: _, [] => rfl
  | x :: xs, y :: ys => by
    cases hp : p x y <;>
      simp [applyMask, List.filter_cons, hp, applyMask_zipWith_snd p xs ys]

/-- Claim C5 (amended): the three masking helpers return exactly the result of
the underlying statistic applied to the two sequences with the NaN pairs
(either coordinate NaN) removed and relative order preserved. Entries that are
infinite but not NaN are retained, contrary to the claim's finiteness
requirement. -/
theorem masking_drops_exactly_nan_pairs (env : ScipyEnv) (xs ys : List EFloat) :
    log_spearmanr env xs ys = env.spearmanr (nanKeptXs xs ys) (nanKeptYs xs ys)
    ∧ log_pearsonr env xs ys = env.pearsonr (nanKeptXs xs ys) (nanKeptYs xs ys)
    ∧ log_linregress env xs ys = env.linregress (nanKeptXs xs ys) (nanKeptYs xs ys) := by
  refine ⟨?_, ?_, ?_⟩ <;>
    simp [log_spearmanr, log_pearsonr, log_linregress, nanMask, nanKeptXs, nanKeptYs,
      nanKeptPairs, applyMask_zipWith_fst, applyMask_zipWith_snd]

/-- Claim C5 (counterexample): on inputs with two valid (finite, non-NaN)
entries and one infinite entry, `log_pearsonr` does not equal the statistic
applied to the sequences with the invalid entries removed: the infinite entry
is passed through to the statistic. -/
theorem masking_retains_infinite_entries :
    (specValidMask Xinf Y3).count true = 2
    ∧ log_pearsonr testEnv Xinf Y3
        ≠ testEnv.pearsonr (applyMask (specValidMask Xinf Y3) Xinf)
            (applyMask (specValidMask Xinf Y3) Y3) := by
  constructor
  · rfl
  · decide

/-- Index lookup in the NaN mask: true exactly where both (in-range) values
are non-NaN; out-of-range lookups default to false on the left and to a NaN
default on the right, so the equation holds unconditionally. -/
theorem nanMask_getD :
    ∀ (xs ys : List EFloat) (i : ℕ),
      (nanMask xs ys).getD i false
        = (!(xs.getD i EFloat.nan).isnan && !(ys.getD i EFloat.nan).isnan)
  | [], ys, i => by cases ys <;> simp [nanMask, EFloat.isnan]
  | _ :: _, [], i => by simp [nanMask, EFloat.isnan]
  | x :: xs, y :: ys, 0 => by simp [nanMask]
  | x :: xs, y :: ys, i + 1 => by
    simpa [nanMask] using nanMask_getD xs ys i

/-- Claim C6 (amended): the validity mask built by the `log_*` helpers is true
at an index iff both values there are non-NaN — finiteness is not tested, so
infinite values are not excluded — and each of the three helpers applies
exactly this mask to both sequences before calling its statistic. -/
theorem nan_mask_true_iff_both_nonnan (xs ys : List EFloat) (i : ℕ) (env : ScipyEnv) :
    (nanMask xs ys).getD i false
      = (!(xs.getD i EFloat.nan).isnan && !(ys.getD i EFloat.nan).isnan)
    ∧ log_spearmanr env xs ys
        = env.spearmanr (applyMask (nanMask xs ys) xs) (applyMask (nanMask xs ys) ys)
    ∧ log_pearsonr env xs ys
        = env.pearsonr (applyMask (nanMask xs ys) xs) (applyMask (nanMask xs ys) ys)
    ∧ log_linregress env xs ys
        = env.linregress (applyMask (nanMask xs ys) xs) (applyMask (nanMask xs ys) ys) :=
  ⟨nanMask_getD xs ys i, rfl, rfl, rfl⟩

/-- Claim C6 (counterexample): at an index whose x-value is infinite (hence
not finite), the mask built by the `log_*` helpers is nevertheless true, so
the point is not excluded from the filtered pair. -/
theorem nan_mask_true_at_infinite_value :
    (nanMask [EFloat.val 1, EFloat.inf] [EFloat.val 1, EFloat.val 1]).getD 1 false = true
    ∧ (([EFloat.val 1, EFloat.inf] : List EFloat).getD 1 EFloat.nan).isfinite = false := by
  decide

/-- Claim C9: `bootstrap_power_law_odr` performs no up-front validation; with
`rounds = 0` it returns three empty sequences for every input and fraction,
including inputs with no valid points at all. -/
theorem bootstrap_zero_rounds_returns_empty (env : ScipyEnv) (xs ys : List EFloat)
    (fraction : ℚ) (stream : ℕ → ℕ) :
    bootstrap_power_law_odr env xs ys fraction 0 stream = .ok ([], [], []) := rfl

deriving instance DecidableEq for Except

/-- An environment whose `linregress` oracle only ever raises errors other
than the two spec-named kinds — true of scipy, whose failures here are
`ValueError`s. -/
def NoSpecErrors (env : ScipyEnv) : Prop :=
  ∀ xs ys e, env.linregress xs ys = .error e →
    e ≠ PyError.insufficientDataError ∧ e ≠ PyError.convergenceError

/-- The concrete test environment raises only `ValueError`s. -/
theorem testEnv_noSpecErrors : NoSpecErrors testEnv := by
  intro xs ys e h
  have h2 : testLinregress xs ys = Except.error e := h
  unfold testLinregress at h2
  split at h2
  · cases h2
    exact ⟨by simp, by simp⟩
  · cases h2

/-- An error result of `fit_power_law_odr` is exactly an error of the
`linregress` warm-start call on the masked data: the function raises nothing
of its own. -/
theorem fit_error_iff (env : ScipyEnv) (xs ys : List EFloat) (u : Bool) (e : PyError) :
    fit_power_law_odr env xs ys u = .error e
      ↔ env.linregress (odrXs xs ys) (odrYs xs ys) = .error e := by
  unfold fit_power_law_odr
  cases h : env.linregress (odrXs xs ys) (odrYs xs ys) <;> simp

/-- The r returned by a successful `fit_power_law_odr` is the first component
of `pearsonr` on the masked data, independently of the model choice. -/
theorem fit_ok_r (env : ScipyEnv) (xs ys : List EFloat) (u : Bool)
    (t : EFloat × EFloat × EFloat) (h : fit_power_law_odr env xs ys u = .ok t) :
    t.2.2 = (env.pearsonr (odrXs xs ys) (odrYs xs ys)).1 := by
  unfold fit_power_law_odr at h
  cases hl : env.linregress (odrXs xs ys) (odrYs xs ys) <;> rw [hl] at h
  · cases h
  · cases h
    rfl

/-- Claim C3: when `fit_power_law_odr` returns with `unit_exp = true`, the
exponent is exactly 1, and the prefactor is `np.exp` of the single parameter
fitted by the solver for the 1-parameter `_slope_one` model, started from the
OLS intercept alone. -/
theorem fit_odr_unit_exponent_is_one (env : ScipyEnv) (xs ys : List EFloat)
    (lr : LinResult) (e p r : EFloat)
    (hl : env.linregress (odrXs xs ys) (odrYs xs ys) = .ok lr)
    (h : fit_power_law_odr env xs ys true = .ok (e, p, r)) :
    e = EFloat.val 1
    ∧ p = env.fexp ((env.odrRun ODRModelF.slope_one (odrXs xs ys) (odrYs xs ys)
        [lr.intercept]).beta.getD 0 EFloat.nan) := by
  unfold fit_power_law_odr at h
  rw [hl] at h
  simp only [if_true, reduceIte] at h
  cases h
  exact ⟨rfl, rfl⟩

/-- Claim C3 witness: on concrete two-point data in the test environment the
constrained fit returns, and the theorem's conclusions evaluate as stated. -/
theorem fit_odr_unit_exponent_is_one_app :
    EFloat.val 1 = EFloat.val 1
    ∧ EFloat.val 1 = testEnv.fexp ((testEnv.odrRun ODRModelF.slope_one
        (odrXs [EFloat.val 1, EFloat.val 2] [EFloat.val 1, EFloat.val 2])
        (odrYs [EFloat.val 1, EFloat.val 2] [EFloat.val 1, EFloat.val 2])
        [(LinResult.mk (EFloat.val 1) (EFloat.val 1) (EFloat.val 1) (EFloat.val 0)
          (EFloat.val 0)).intercept]).beta.getD 0 EFloat.nan) :=
  fit_odr_unit_exponent_is_one testEnv [EFloat.val 1, EFloat.val 2]
    [EFloat.val 1, EFloat.val 2]
    (LinResult.mk (EFloat.val 1) (EFloat.val 1) (EFloat.val 1) (EFloat.val 0) (EFloat.val 0))
    (EFloat.val 1) (EFloat.val 1) (EFloat.val 2) (by decide) (by decide)

/-- Claim C10: the r-value returned by `fit_power_law_odr` is the Pearson
correlation of the masked log data and does not depend on the `unit_exp`
flag: whenever both the unconstrained and the constrained call return, their
r components agree. -/
theorem fit_odr_r_independent_of_unit_exp (env : ScipyEnv) (xs ys : List EFloat)
    (t1 t2 : EFloat × EFloat × EFloat)
    (h1 : fit_power_law_odr env xs ys false = .ok t1)
    (h2 : fit_power_law_odr env xs ys true = .ok t2) :
    t1.2.2 = (env.pearsonr (odrXs xs ys) (odrYs xs ys)).1 ∧ t2.2.2 = t1.2.2 := by
  have e1 := fit_ok_r env xs ys false t1 h1
  have e2 := fit_ok_r env xs ys true t2 h2
  exact ⟨e1, e2.trans e1.symm⟩

/-- Claim C10 witness: both fits return on concrete data in the test
environment, and the r components agree as the theorem states. -/
theorem fit_odr_r_independent_of_unit_exp_app :
    (EFloat.val 1, EFloat.val 1, EFloat.val 2).2.2
      = (testEnv.pearsonr (odrXs [EFloat.val 1, EFloat.val 2] [EFloat.val 1, EFloat.val 2])
          (odrYs [EFloat.val 1, EFloat.val 2] [EFloat.val 1, EFloat.val 2])).1
    ∧ (EFloat.val 1, EFloat.val 1, EFloat.val 2).2.2
        = (EFloat.val 1, EFloat.val 1, EFloat.val 2).2.2 :=
  fit_odr_r_independent_of_unit_exp testEnv [EFloat.val 1, EFloat.val 2]
    [EFloat.val 1, EFloat.val 2] (EFloat.val 1, EFloat.val 1, EFloat.val 2)
    (EFloat.val 1, EFloat.val 1, EFloat.val 2) (by decide) (by decide)

/-- Claim C7 (amended): `fit_power_law_odr` performs no valid-point-count
check of its own. It never raises `InsufficientDataError` (whose kind no
collaborator raises either), and when the masked data leaves the warm-start
`linregress` raising — as scipy does with fewer than two points — that
error is what propagates, in both the constrained and unconstrained modes. -/
theorem fit_odr_no_insufficient_data_check (env : ScipyEnv) (xs ys : List EFloat) (u : Bool) :
    (NoSpecErrors env → fit_power_law_odr env xs ys u ≠ .error PyError.insufficientDataError)
    ∧ (∀ e, env.linregress (odrXs xs ys) (odrYs xs ys) = .error e →
        fit_power_law_odr env xs ys u = .error e) := by
  constructor
  · intro henv h
    exact ((henv _ _ _ ((fit_error_iff env xs ys u _).1 h)).1) rfl
  · intro e he
    exact (fit_error_iff env xs ys u e).2 he

/-- Claim C7 witness: in the test environment, with no valid points at all,
the unconstrained fit propagates the collaborator's `ValueError` and in
particular does not return `InsufficientDataError`. -/
theorem fit_odr_no_insufficient_data_check_app :
    NoSpecErrors testEnv
    ∧ fit_power_law_odr testEnv [] [] false = .error PyError.valueError
    ∧ fit_power_law_odr testEnv [] [] false ≠ .error PyError.insufficientDataError :=
  ⟨testEnv_noSpecErrors,
    (fit_odr_no_insufficient_data_check testEnv [] [] false).2 PyError.valueError (by decide),
    (fit_odr_no_insufficient_data_check testEnv [] [] false).1 testEnv_noSpecErrors⟩

/-- Claim C7 (counterexample): with a single valid point and the constrained
mode — where the claim asserts success needs only one point and failure would
be an `InsufficientDataError` — the embedded code instead propagates the
warm-start `linregress` `ValueError`; likewise the unconstrained mode on empty
data yields a `ValueError`, not an `InsufficientDataError`. -/
theorem fit_odr_few_points_value_error :
    fit_power_law_odr testEnv [EFloat.val 1] [EFloat.val 1] true = .error PyError.valueError
    ∧ fit_power_law_odr testEnv [] [] false = .error PyError.valueError
    ∧ PyError.valueError ≠ PyError.insufficientDataError := by
  refine ⟨by decide, by decide, by decide⟩

/-- Claim C2 (amended): `fit_power_law_odr` never inspects the solver's
convergence diagnostics — its result depends only on the returned parameter
vector `beta`, so changing the solver's `info` stopping code changes nothing —
and it never raises `ConvergenceError`. -/
theorem fit_odr_ignores_convergence_diagnostics
    (flog : ℚ → EFloat) (fexp : EFloat → EFloat)
    (sp pe : List EFloat → List EFloat → EFloat × EFloat)
    (lr : List EFloat → List EFloat → Except PyError LinResult)
    (betaF : ODRModelF → List EFloat → List EFloat → List EFloat → List EFloat)
    (i1 i2 : ℤ) (xs ys : List EFloat) (u : Bool) :
    fit_power_law_odr ⟨flog, fexp, sp, pe, lr, fun m a b c => ⟨betaF m a b c, i1⟩⟩ xs ys u
      = fit_power_law_odr ⟨flog, fexp, sp, pe, lr, fun m a b c => ⟨betaF m a b c, i2⟩⟩ xs ys u
    ∧ (NoSpecErrors ⟨flog, fexp, sp, pe, lr, fun m a b c => ⟨betaF m a b c, i1⟩⟩ →
        fit_power_law_odr ⟨flog, fexp, sp, pe, lr, fun m a b c => ⟨betaF m a b c, i1⟩⟩ xs ys u
          ≠ .error PyError.convergenceError) := by
  constructor
  · rfl
  · intro henv h
    exact ((henv _ _ _ ((fit_error_iff _ xs ys u _).1 h)).2) rfl

/-- Claim C2 (counterexample): in an environment whose solver reports
non-convergence (`info = 4`, iteration limit), `fit_power_law_odr` still
returns a fit result, silently. -/
theorem fit_odr_silently_returns_nonconverged_fit :
    (testEnvStuck.odrRun ODRModelF.lin_f
        (odrXs [EFloat.val 1, EFloat.val 2] [EFloat.val 1, EFloat.val 2])
        (odrYs [EFloat.val 1, EFloat.val 2] [EFloat.val 1, EFloat.val 2])
        [EFloat.val 1, EFloat.val 1]).info = 4
    ∧ fit_power_law_odr testEnvStuck [EFloat.val 1, EFloat.val 2]
        [EFloat.val 1, EFloat.val 2] false
        = .ok (EFloat.val 1, EFloat.val 1, EFloat.val 2) := by
  refine ⟨by decide, by decide⟩

/-- Success characterization of the embedded `np.random.choice`: it succeeds
iff the requested size is non-negative and the population is non-empty (unless
no samples are taken), and the drawn indices are `roundIdxs`. -/
theorem np_random_choice_ok_iff (tot : ℕ) (size : ℤ) (stream : ℕ → ℕ) (pos : ℕ)
    (idxs : List ℕ) :
    np_random_choice tot size stream pos = .ok idxs
      ↔ ¬size < 0 ∧ ¬(tot = 0 ∧ size ≠ 0) ∧ idxs = roundIdxs tot size stream pos := by
  unfold np_random_choice
  split_ifs with h1 h2
  · simp [h1]
  · simp [h1, h2]
  · simp [h1, h2, eq_comm]

/-- The embedded `np.random.choice` only ever raises `ValueError`. -/
theorem np_random_choice_error_eq (tot : ℕ) (size : ℤ) (stream : ℕ → ℕ) (pos : ℕ)
    (e : PyError) (h : np_random_choice tot size stream pos = .error e) :
    e = PyError.valueError := by
  unfold np_random_choice at h
  split_ifs at h <;> cases h <;> rfl

/-- Structure of a successful resampling loop run: the three accumulators have
one entry per round, and the entries of round `k` are exactly the results of
the unconstrained fit on the logs of the values gathered at the indices drawn
at stream position `pos + k * size.toNat`. -/
theorem bootstrapLoop_ok (env : ScipyEnv) (mxs mys : List EFloat) (tot : ℕ) (size : ℤ)
    (stream : ℕ → ℕ) :
    ∀ (n pos : ℕ) (es ps rs : List EFloat),
      bootstrapLoop env mxs mys tot size stream n pos = .ok (es, ps, rs) →
      es.length = n ∧ ps.length = n ∧ rs.length = n ∧
      ∀ k, k < n →
        np_random_choice tot size stream (pos + k * size.toNat)
          = .ok (roundIdxs tot size stream (pos + k * size.toNat))
        ∧ fit_power_law_odr env
            ((roundIdxs tot size stream (pos + k * size.toNat)).map
              (fun i => nplog env.flog (mxs.getD i EFloat.nan)))
            ((roundIdxs tot size stream (pos + k * size.toNat)).map
              (fun i => nplog env.flog (mys.getD i EFloat.nan))) false
          = .ok (es.getD k EFloat.nan, ps.getD k EFloat.nan, rs.getD k EFloat.nan) := by
  intro n
  induction n with
  | zero =>
    intro pos es ps rs h
    simp only [bootstrapLoop] at h
    cases h
    exact ⟨rfl, rfl, rfl, fun k hk => absurd hk (Nat.not_lt_zero k)⟩
  | succ n ih =>
    intro pos es ps rs h
    simp only [bootstrapLoop] at h
    split at h
    · cases h
    · rename_i idxs hc
      split at h
      · cases h
      · rename_i epr hf
        split at h
        · cases h
        · rename_i rest hr
          cases h
          obtain ⟨hs1, hs2, hidx⟩ := (np_random_choice_ok_iff tot size stream pos idxs).1 hc
          subst hidx
          obtain ⟨l1, l2, l3, hall⟩ := ih (pos + size.toNat) rest.1 rest.2.1 rest.2.2 hr
          refine ⟨by simp [l1], by simp [l2], by simp [l3], ?_⟩
          intro k hk
          cases k with
          | zero =>
            simp only [Nat.zero_mul, Nat.add_zero, List.getD_cons_zero]
            refine ⟨(np_random_choice_ok_iff tot size stream pos _).2 ⟨hs1, hs2, rfl⟩, ?_⟩
            simpa [List.map_map, Function.comp] using hf
          | succ k =>
            have hpos : pos + size.toNat + k * size.toNat = pos + (k + 1) * size.toNat := by
              have hm : (k + 1) * size.toNat = k * size.toNat + size.toNat := Nat.succ_mul k _
              omega
            have := hall k (Nat.lt_of_succ_lt_succ hk)
            rw [hpos] at this
            simpa [List.getD_cons_succ] using this

/-- An error escaping the resampling loop is either a `ValueError` from the
embedded `np.random.choice` or an error of the `linregress` collaborator. -/
theorem bootstrapLoop_error (env : ScipyEnv) (mxs mys : List EFloat) (tot : ℕ) (size : ℤ)
    (stream : ℕ → ℕ) :
    ∀ (n pos : ℕ) (e : PyError),
      bootstrapLoop env mxs mys tot size stream n pos = .error e →
      e = PyError.valueError ∨ ∃ a b, env.linregress a b = .error e := by
  intro n
  induction n with
  | zero =>
    intro pos e h
    simp only [bootstrapLoop] at h
    cases h
  | succ n ih =>
    intro pos e h
    simp only [bootstrapLoop] at h
    split at h
    · rename_i e0 hc
      cases h
      exact Or.inl (np_random_choice_error_eq tot size stream pos _ hc)
    · rename_i idxs hc
      split at h
      · rename_i e0 hf
        cases h
        exact Or.inr ⟨_, _, (fit_error_iff env _ _ false _).1 hf⟩
      · rename_i epr hf
        split at h
        · rename_i e0 hr
          cases h
          exact ih (pos + size.toNat) _ hr
        · cases h

/-- A draw only reads the stream positions `[pos, pos + size.toNat)`. -/
theorem roundIdxs_congr (tot : ℕ) (size : ℤ) (s1 s2 : ℕ → ℕ) (pos : ℕ)
    (hag : ∀ j, pos ≤ j → j < pos + size.toNat → s1 j = s2 j) :
    roundIdxs tot size s1 pos = roundIdxs tot size s2 pos := by
  unfold roundIdxs
  refine List.map_congr_left ?_
  intro i hi
  rw [hag (pos + i) (Nat.le_add_right pos i)
    (Nat.add_lt_add_left (List.mem_range.1 hi) pos)]

/-- The embedded `np.random.choice` only reads the stream positions
`[pos, pos + size.toNat)`. -/
theorem np_random_choice_congr (tot : ℕ) (size : ℤ) (s1 s2 : ℕ → ℕ) (pos : ℕ)
    (hag : ∀ j, pos ≤ j → j < pos + size.toNat → s1 j = s2 j) :
    np_random_choice tot size s1 pos = np_random_choice tot size s2 pos := by
  unfold np_random_choice
  split_ifs <;> simp [roundIdxs_congr tot size s1 s2 pos hag]

/-- The resampling loop only reads the stream positions
`[pos, pos + n * size.toNat)`: two streams agreeing there produce identical
results. -/
theorem bootstrapLoop_congr (env : ScipyEnv) (mxs mys : List EFloat) (tot : ℕ)
    (size : ℤ) :
    ∀ (n pos : ℕ) (s1 s2 : ℕ → ℕ),
      (∀ j, pos ≤ j → j < pos + n * size.toNat → s1 j = s2 j) →
      bootstrapLoop env mxs mys tot size s1 n pos
        = bootstrapLoop env mxs mys tot size s2 n pos := by
  intro n
  induction n with
  | zero => intro pos s1 s2 hag; rfl
  | succ n ih =>
    intro pos s1 s2 hag
    have hm : (n + 1) * size.toNat = n * size.toNat + size.toNat := Nat.succ_mul n _
    have hch : np_random_choice tot size s1 pos = np_random_choice tot size s2 pos := by
      refine np_random_choice_congr tot size s1 s2 pos ?_
      intro j hj1 hj2
      exact hag j hj1 (by omega)
    have hrec : bootstrapLoop env mxs mys tot size s1 n (pos + size.toNat)
        = bootstrapLoop env mxs mys tot size s2 n (pos + size.toNat) := by
      refine ih (pos + size.toNat) s1 s2 ?_
      intro j hj1 hj2
      exact hag j (by omega) (by omega)
    simp only [bootstrapLoop]
    rw [← hch]
    cases hC : np_random_choice tot size s1 pos with
    | error e => rfl
    | ok idxs =>
      simp only []
      rw [hrec]

/-- Claim C1 (amended): `bootstrap_power_law_odr` performs no validation of
`fraction` or of the subset size and never raises `InsufficientDataError`
itself: in an environment whose collaborators never raise the spec-named error
kinds (as scipy does not), no run of bootstrap, whatever the fraction, rounds
or data, can return `InsufficientDataError`. Failures that do occur are the
collaborators' own (`ValueError`s). -/
theorem bootstrap_never_raises_insufficient_data (env : ScipyEnv)
    (henv : NoSpecErrors env) (xs ys : List EFloat) (fraction : ℚ) (rounds : ℕ)
    (stream : ℕ → ℕ) :
    bootstrap_power_law_odr env xs ys fraction rounds stream
      ≠ .error PyError.insufficientDataError := by
  intro h
  unfold bootstrap_power_law_odr at h
  rcases bootstrapLoop_error env (bootMaskedXs xs ys) (bootMaskedYs xs ys)
      (bootTot xs ys) (bootSubsetSize xs ys fraction) stream rounds 0 _ h with h1 | ⟨a, b, hab⟩
  · cases h1
  · exact (henv a b _ hab).1 rfl

/-- Claim C1 witness: the test environment raises no spec-named errors, and a
bootstrap call with `fraction = 2 > 1` does not return
`InsufficientDataError`. -/
theorem bootstrap_never_raises_insufficient_data_app :
    NoSpecErrors testEnv
    ∧ bootstrap_power_law_odr testEnv X4 X4 2 1 (fun j => j)
        ≠ .error PyError.insufficientDataError :=
  ⟨testEnv_noSpecErrors,
    bootstrap_never_raises_insufficient_data testEnv testEnv_noSpecErrors X4 X4 2 1
      (fun j => j)⟩

unseal Rat.mul Rat.inv in
/-- Claim C1 (counterexample): with `fraction = 2 > 1` the bootstrap, far from
raising `InsufficientDataError`, proceeds to resample (an oversized subset)
and returns normally; with a fraction small enough to give a subset of size 0,
and with a negative fraction, what is raised is the collaborators'
`ValueError`, not `InsufficientDataError`. -/
theorem bootstrap_invalid_fraction_still_resamples :
    bootstrap_power_law_odr testEnv X4 X4 2 1 (fun j => j)
      = .ok ([EFloat.val 1], [EFloat.val 1], [EFloat.val 8])
    ∧ bootstrap_power_law_odr testEnv X4 X4 (1/8) 1 (fun j => j)
        = .error PyError.valueError
    ∧ bootstrap_power_law_odr testEnv X4 X4 (-1) 1 (fun j => j)
        = .error PyError.valueError
    ∧ PyError.valueError ≠ PyError.insufficientDataError := by
  refine ⟨by decide, by decide, by decide, by decide⟩

/-- Claim C4: on a successful run with a valid fraction, the subset size is
`⌊fraction * tot⌋` where `tot` is the number of valid points; the three
returned sequences each have length exactly `rounds`; and for each round
`k < rounds` the drawn indices (`subset size` per round, with replacement,
all within the valid index set) are gathered from the masked arrays, mapped
through `np.log`, given to the unconstrained `fit_power_law_odr`, and the
round's entries of the three sequences are exactly that fit's results. -/
theorem bootstrap_subset_floor_and_round_structure (env : ScipyEnv)
    (xs ys : List EFloat) (fraction : ℚ) (rounds : ℕ) (stream : ℕ → ℕ)
    (es ps rs : List EFloat) (k : ℕ)
    (hf0 : 0 < fraction) (_hf1 : fraction ≤ 1)
    (h : bootstrap_power_law_odr env xs ys fraction rounds stream = .ok (es, ps, rs))
    (hk : k < rounds) :
    bootSubsetSize xs ys fraction = ⌊fraction * (bootTot xs ys : ℚ)⌋
    ∧ es.length = rounds ∧ ps.length = rounds ∧ rs.length = rounds
    ∧ (roundIdxs (bootTot xs ys) (bootSubsetSize xs ys fraction) stream
          (k * (bootSubsetSize xs ys fraction).toNat)).all
        (fun i => decide (i < bootTot xs ys)) = true
    ∧ fit_power_law_odr env
        ((roundIdxs (bootTot xs ys) (bootSubsetSize xs ys fraction) stream
            (k * (bootSubsetSize xs ys fraction).toNat)).map
          (fun i => nplog env.flog ((bootMaskedXs xs ys).getD i EFloat.nan)))
        ((roundIdxs (bootTot xs ys) (bootSubsetSize xs ys fraction) stream
            (k * (bootSubsetSize xs ys fraction).toNat)).map
          (fun i => nplog env.flog ((bootMaskedYs xs ys).getD i EFloat.nan)))
        false
      = .ok (es.getD k EFloat.nan, ps.getD k EFloat.nan, rs.getD k EFloat.nan) := by
  unfold bootstrap_power_law_odr at h
  obtain ⟨l1, l2, l3, hall⟩ := bootstrapLoop_ok env (bootMaskedXs xs ys)
    (bootMaskedYs xs ys) (bootTot xs ys) (bootSubsetSize xs ys fraction) stream
    rounds 0 es ps rs h
  obtain ⟨hchoice, hfit⟩ := hall k hk
  rw [Nat.zero_add] at hchoice hfit
  refine ⟨?_, l1, l2, l3, ?_, hfit⟩
  · have hq : (0 : ℚ) ≤ fraction * (bootTot xs ys : ℚ) :=
      mul_nonneg hf0.le (Nat.cast_nonneg _)
    simp [bootSubsetSize, pytrunc, hq]
  · obtain ⟨hs1, hs2, _⟩ := (np_random_choice_ok_iff _ _ _ _ _).1 hchoice
    rw [List.all_eq_true]
    intro i hi
    unfold roundIdxs at hi
    obtain ⟨j, hj, rfl⟩ := List.mem_map.1 hi
    have hj2 := List.mem_range.1 hj
    have hsz : bootSubsetSize xs ys fraction ≠ 0 := by
      intro h0
      rw [h0] at hj2
      exact absurd hj2 (by simp)
    have htot : bootTot xs ys ≠ 0 := fun h0 => hs2 ⟨h0, hsz⟩
    simpa using Nat.mod_lt _ (Nat.pos_of_ne_zero htot)

unseal Rat.mul Rat.inv in
/-- Claim C4 witness: a concrete two-round run in the test environment with
`fraction = 1/2` over four valid points (subset size 2); the returned
sequences have length 2 and round 0 is characterized as the theorem states. -/
theorem bootstrap_subset_floor_and_round_structure_app :
    (0 : ℚ) < 1/2 ∧ (1/2 : ℚ) ≤ 1
    ∧ (bootSubsetSize X4 X4 (1/2) = ⌊(1/2 : ℚ) * (bootTot X4 X4 : ℚ)⌋
      ∧ ([EFloat.val 1, EFloat.val 3] : List EFloat).length = 2
      ∧ ([EFloat.val 1, EFloat.val 3] : List EFloat).length = 2
      ∧ ([EFloat.val 2, EFloat.val 2] : List EFloat).length = 2
      ∧ (roundIdxs (bootTot X4 X4) (bootSubsetSize X4 X4 (1/2)) (fun j => j)
            (0 * (bootSubsetSize X4 X4 (1/2)).toNat)).all
          (fun i => decide (i < bootTot X4 X4)) = true
      ∧ fit_power_law_odr testEnv
          ((roundIdxs (bootTot X4 X4) (bootSubsetSize X4 X4 (1/2)) (fun j => j)
              (0 * (bootSubsetSize X4 X4 (1/2)).toNat)).map
            (fun i => nplog testEnv.flog ((bootMaskedXs X4 X4).getD i EFloat.nan)))
          ((roundIdxs (bootTot X4 X4) (bootSubsetSize X4 X4 (1/2)) (fun j => j)
              (0 * (bootSubsetSize X4 X4 (1/2)).toNat)).map
            (fun i => nplog testEnv.flog ((bootMaskedYs X4 X4).getD i EFloat.nan)))
          false
        = .ok (([EFloat.val 1, EFloat.val 3] : List EFloat).getD 0 EFloat.nan,
            ([EFloat.val 1, EFloat.val 3] : List EFloat).getD 0 EFloat.nan,
            ([EFloat.val 2, EFloat.val 2] : List EFloat).getD 0 EFloat.nan)) :=
  ⟨by decide, by decide,
    bootstrap_subset_floor_and_round_structure testEnv X4 X4 (1/2) 2 (fun j => j)
      [EFloat.val 1, EFloat.val 3] [EFloat.val 1, EFloat.val 3]
      [EFloat.val 2, EFloat.val 2] 0 (by decide) (by decide) (by decide) (by decide)⟩

/-- Claim C8 (amended): `bootstrap_power_law_odr` takes no seed; its
randomness comes from the ambient global generator. It is deterministic in
the consumed stream: two runs on the same inputs whose streams agree on the
`rounds * subset_size` consumed draws return identical results. -/
theorem bootstrap_deterministic_in_consumed_stream (env : ScipyEnv)
    (xs ys : List EFloat) (fraction : ℚ) (rounds : ℕ) (s1 s2 : ℕ → ℕ)
    (hag : ∀ j, j < rounds * (bootSubsetSize xs ys fraction).toNat → s1 j = s2 j) :
    bootstrap_power_law_odr env xs ys fraction rounds s1
      = bootstrap_power_law_odr env xs ys fraction rounds s2 := by
  unfold bootstrap_power_law_odr
  refine bootstrapLoop_congr env (bootMaskedXs xs ys) (bootMaskedYs xs ys)
    (bootTot xs ys) (bootSubsetSize xs ys fraction) rounds 0 s1 s2 ?_
  intro j hj1 hj2
  exact hag j (by simpa using hj2)

/-- A stream of consecutive naturals. -/
def streamA (j : ℕ) : ℕ := j

/-- A stream agreeing with `streamA` on positions 0 and 1 only. -/
def streamB (j : ℕ) : ℕ := if j < 2 then j else j + 7

unseal Rat.mul Rat.inv in
/-- Claim C8 witness: two streams agreeing on the two consumed draws of a
one-round, subset-size-two run produce identical bootstrap results. -/
theorem bootstrap_deterministic_in_consumed_stream_app :
    (∀ j, j < 1 * (bootSubsetSize X4 X4 (1/2)).toNat → streamA j = streamB j)
    ∧ bootstrap_power_law_odr testEnv X4 X4 (1/2) 1 streamA
        = bootstrap_power_law_odr testEnv X4 X4 (1/2) 1 streamB :=
  ⟨by decide,
    bootstrap_deterministic_in_consumed_stream testEnv X4 X4 (1/2) 1 streamA streamB
      (by decide)⟩

unseal Rat.mul Rat.inv in
/-- Claim C8 (counterexample): the function signature carries no seed, and two
runs on identical inputs (same xs, ys, fraction, rounds) but different states
of the ambient generator return different output sequences — the output is
not determined by the function's inputs. -/
theorem bootstrap_same_inputs_different_stream_differs :
    bootstrap_power_law_odr testEnv X4 X4 (1/2) 1 (fun _ => 0)
      = .ok ([EFloat.val 1], [EFloat.val 1], [EFloat.val 2])
    ∧ bootstrap_power_law_odr testEnv X4 X4 (1/2) 1 (fun _ => 1)
        = .ok ([EFloat.val 2], [EFloat.val 2], [EFloat.val 2])
    ∧ ([EFloat.val 1] : List EFloat) ≠ [EFloat.val 2] := by
  refine ⟨by decide, by decide, by decide⟩

/-- Any environment whose `linregress` is the scipy-like `testLinregress`
raises no spec-named error kinds, whatever its other oracles. -/
theorem testLinregress_noSpecErrors (fl : ℚ → EFloat) (fe : EFloat → EFloat)
    (sp pe : List EFloat → List EFloat → EFloat × EFloat)
    (od : ODRModelF → List EFloat → List EFloat → List EFloat → ODROutput) :
    NoSpecErrors ⟨fl, fe, sp, pe, testLinregress, od⟩ := by
  intro xs ys e h
  have h2 : testLinregress xs ys = Except.error e := h
  unfold testLinregress at h2
  split at h2
  · cases h2
    exact ⟨by simp, by simp⟩
  · cases h2

/-- Claim C2 witness: with the solver's parameter vector fixed, changing its
convergence code from 1 (converged) to 4 (iteration limit) leaves the result
of `fit_power_law_odr` unchanged, and no `ConvergenceError` is raised. -/
theorem fit_odr_ignores_convergence_diagnostics_app :
    NoSpecErrors ⟨testFlog, testFexp, testSpearman, testPearson, testLinregress,
      fun _m _a _b c => ⟨c, 1⟩⟩
    ∧ fit_power_law_odr ⟨testFlog, testFexp, testSpearman, testPearson, testLinregress,
        fun _m _a _b c => ⟨c, 1⟩⟩ [EFloat.val 1, EFloat.val 2] [EFloat.val 1, EFloat.val 2]
        false
      = fit_power_law_odr ⟨testFlog, testFexp, testSpearman, testPearson, testLinregress,
          fun _m _a _b c => ⟨c, 4⟩⟩ [EFloat.val 1, EFloat.val 2] [EFloat.val 1, EFloat.val 2]
          false
    ∧ fit_power_law_odr ⟨testFlog, testFexp, testSpearman, testPearson, testLinregress,
        fun _m _a _b c => ⟨c, 1⟩⟩ [EFloat.val 1, EFloat.val 2] [EFloat.val 1, EFloat.val 2]
        false
      ≠ .error PyError.convergenceError :=
  ⟨testLinregress_noSpecErrors testFlog testFexp testSpearman testPearson
      (fun _m _a _b c => ⟨c, 1⟩),
    (fit_odr_ignores_convergence_diagnostics testFlog testFexp testSpearman testPearson
      testLinregress (fun _m _a _b c => c) 1 4 [EFloat.val 1, EFloat.val 2]
      [EFloat.val 1, EFloat.val 2] false).1,
    (fit_odr_ignores_convergence_diagnostics testFlog testFexp testSpearman testPearson
      testLinregress (fun _m _a _b c => c) 1 4 [EFloat.val 1, EFloat.val 2]
      [EFloat.val 1, EFloat.val 2] false).2
      (testLinregress_noSpecErrors testFlog testFexp testSpearman testPearson
        (fun _m _a _b c => ⟨c, 1⟩))⟩
